import Mathlib

/-!
Verification development for the k6-report-portal test orchestrator.

The definitions below are a shallow embedding of the orchestration core in
`src/index.js` and the metadata decorators in `src/decorators.js`:

  * Suites are JavaScript objects: a list of own instance properties plus a
    prototype chain of property lists.  Property lookup (`suite[name]`) scans
    the instance own properties and then each prototype level, first hit wins.
  * Hook and test discovery enumerates `Object.getOwnPropertyNames` of the
    immediate prototype (`Object.getPrototypeOf(testSuite)`) and tests each
    name through full property lookup, exactly as the source does.
  * The reporting sink (`config.logger`) is modelled as a trace of events
    together with a counter supplying fresh item identifiers; each runner
    returns the list of sink calls it performed plus the error it re-threw,
    if any.  Procedure invocations are additionally recorded as `invoke`
    events so that the argument handed to each procedure is observable.
  * A thrown JavaScript error is a value of `Err` (carrying `error.message`);
    fallible phases return `Option Err`.
-/

namespace K6

/-- Suite-level metadata, the `_suiteMetadata` object stored by the `Suite`
decorator. -/
structure SuiteMeta where
  name : String
  description : String
  features : List String
  deriving Repr, DecidableEq

/-- Per-test metadata attached by the `Test` decorator. -/
structure TestMeta where
  name : String
  description : String
  priority : Option String
  features : List String
  service : Option String
  deriving Repr, DecidableEq

/-- A thrown error, identified by its `message`. -/
structure Err where
  message : String
  deriving Repr, DecidableEq

/-- The run configuration object threaded through the runners.  `base` stands
for all the data fields the orchestrator spreads along unchanged (`logger`,
`testSuites`, `enabledSuites`, the k6 data); `testId` is the current-item
identifier field that `{...config, testId}` overwrites at each nesting
level. -/
structure Config where
  base : Nat
  testId : Option Nat
  deriving Repr, DecidableEq

/-- Result of invoking a suite procedure: a returned value (an opaque `Nat`)
or a thrown error. -/
inductive ProcResult where
  | ok (value : Nat)
  | err (e : Err)
  deriving Repr, DecidableEq

/-- A function-valued property: the decorator-visible flags and metadata
together with the behaviour of the procedure when called with a
configuration object. -/
structure Method where
  isSetup : Bool
  isTeardown : Bool
  testMetadata : Option TestMeta
  body : Config → ProcResult

/-- A JavaScript property value as far as the orchestrator inspects it:
a function, a suite-metadata object, or some other value. -/
inductive Value where
  | fn (m : Method)
  | suiteMetaVal (sm : SuiteMeta)
  | dataVal (n : Nat)

/-- A suite object: own properties of the instance, then the prototype chain
(head is the immediate prototype, `Object.getPrototypeOf(testSuite)`). -/
structure JSObject where
  own : List (String × Value)
  protoChain : List (List (String × Value))

/-- Lookup along the prototype chain. -/
def lookupChain : List (List (String × Value)) → String → Option Value
  | [], _ => none
  | props :: rest, name =>
    match List.lookup name props with
    | some v => some v
    | none => lookupChain rest name

/-- Full JavaScript property lookup `suite[name]`: instance own properties
first, then the prototype chain. -/
def lookupProp (s : JSObject) (name : String) : Option Value :=
  match List.lookup name s.own with
  | some v => some v
  | none => lookupChain s.protoChain name

/-- `Object.getOwnPropertyNames(Object.getPrototypeOf(testSuite))`: the own
property names of the immediate prototype, in definition order. -/
def protoOwnNames (s : JSObject) : List String :=
  (s.protoChain.headD []).map Prod.fst

/-- Truthiness of `v.isSetup` for a looked-up property value. -/
def valIsSetup : Option Value → Bool
  | some (Value.fn m) => m.isSetup
  | _ => false

/-- Truthiness of `v.isTeardown` for a looked-up property value. -/
def valIsTeardown : Option Value → Bool
  | some (Value.fn m) => m.isTeardown
  | _ => false

/-- The `testMetadata` property of a looked-up value, when it is a function
carrying one (the `typeof fn === 'function' && fn.testMetadata` check). -/
def valTestMetadata : Option Value → Option TestMeta
  | some (Value.fn m) => m.testMetadata
  | _ => none

/-- Calling `suite[name](cfg)`.  The reachable call sites always pass a name
whose looked-up value is a function; calling anything else is a type error. -/
def invokeMethod (s : JSObject) (name : String) (cfg : Config) : ProcResult :=
  match lookupProp s name with
  | some (Value.fn m) => m.body cfg
  | _ => ProcResult.err { message := "TypeError: not a function" }

/-- One call made to the reporting sink, or one observed procedure
invocation (`invoke phase methodName argument`). -/
inductive Event where
  | startSuite (id : Nat) (name description : String) (features : List String)
  | finishSuite (id : Nat) (status : String)
  | startTest (id : Nat) (name description : String) (priority : Option String)
      (features : List String) (service : Option String) (parent : Option Nat)
  | finishTest (id : Nat) (status : String)
  | logInfo (id : Option Nat) (msg : String)
  | logSuccess (id : Option Nat) (msg : String)
  | logError (id : Option Nat) (msg : String)
  | invoke (phase : String) (methodName : String) (arg : Config)
  deriving Repr, DecidableEq

/-- Discovery of the setup hook:
`Object.getOwnPropertyNames(Object.getPrototypeOf(testSuite)).find(m => testSuite[m].isSetup)`. -/
def findSetupName (s : JSObject) : Option String :=
  (protoOwnNames s).find? (fun n => valIsSetup (lookupProp s n))

/-- Discovery of the teardown hook, same shape as `findSetupName`. -/
def findTeardownName (s : JSObject) : Option String :=
  (protoOwnNames s).find? (fun n => valIsTeardown (lookupProp s n))

/-- `runSuiteSetup` from `src/index.js`: run the discovered setup hook, log
around it, and re-throw its error.  The return value of the hook is awaited
and then discarded (`await Promise.resolve(testSuite[setupMethod](config))`
is a bare statement). -/
def runSuiteSetup (s : JSObject) (cfg : Config) : List Event × Option Err :=
  match findSetupName s with
  | none => ([], none)
  | some n =>
    match invokeMethod s n cfg with
    | ProcResult.ok _ =>
      ([Event.logInfo cfg.testId "Starting suite setup",
        Event.invoke "setup" n cfg,
        Event.logSuccess cfg.testId "Suite setup completed"], none)
    | ProcResult.err e =>
      ([Event.logInfo cfg.testId "Starting suite setup",
        Event.invoke "setup" n cfg,
        Event.logError cfg.testId ("Suite setup failed: " ++ e.message)], some e)

/-- `runSuiteTeardown` from `src/index.js`, the teardown twin of
`runSuiteSetup`. -/
def runSuiteTeardown (s : JSObject) (cfg : Config) : List Event × Option Err :=
  match findTeardownName s with
  | none => ([], none)
  | some n =>
    match invokeMethod s n cfg with
    | ProcResult.ok _ =>
      ([Event.logInfo cfg.testId "Starting suite teardown",
        Event.invoke "teardown" n cfg,
        Event.logSuccess cfg.testId "Suite teardown completed"], none)
    | ProcResult.err e =>
      ([Event.logInfo cfg.testId "Starting suite teardown",
        Event.invoke "teardown" n cfg,
        Event.logError cfg.testId ("Suite teardown failed: " ++ e.message)], some e)

/-- The test discovery filter of `runTests`: prototype own names whose
looked-up value is a function with a truthy `testMetadata`, paired with that
function and its metadata. -/
def discoveredTests (s : JSObject) : List (String × Method × TestMeta) :=
  (protoOwnNames s).filterMap (fun n =>
    match lookupProp s n with
    | some (Value.fn m) =>
      match m.testMetadata with
      | some meta => some (n, m, meta)
      | none => none
    | _ => none)

/-- The per-test loop of `runTests`.  State: remaining tests, the sink's next
fresh identifier, the recorded `firstError`, and the `hasFailedTests` flag.
Returns the emitted events, the final `firstError`, the final flag, and the
next fresh identifier. -/
def runTestsAux (cfg : Config) :
    List (String × Method × TestMeta) → Nat → Option Err → Bool →
    List Event × Option Err × Bool × Nat
  | [], nid, firstError, hasFailed => ([], firstError, hasFailed, nid)
  | (name, m, meta) :: rest, nid, firstError, hasFailed =>
    let testId := nid
    let argCfg : Config := { cfg with testId := some testId }
    let pre := [Event.startTest testId meta.name meta.description meta.priority
                  meta.features meta.service cfg.testId,
                Event.logInfo (some testId) ("Starting test: " ++ meta.name),
                Event.invoke "test" name argCfg]
    match m.body argCfg with
    | ProcResult.ok _ =>
      let r := runTestsAux cfg rest (nid + 1) firstError hasFailed
      (pre ++ [Event.logSuccess (some testId) ("Test completed: " ++ meta.name),
               Event.finishTest testId "passed"] ++ r.1, r.2)
    | ProcResult.err e =>
      let fe := if firstError.isSome then firstError else some e
      let r := runTestsAux cfg rest (nid + 1) fe true
      (pre ++ [Event.logError (some testId) ("Test failed: " ++ e.message),
               Event.finishTest testId "failed"] ++ r.1, r.2)

/-- `runTests` from `src/index.js`: run every discovered test, then re-throw
the first recorded error when `hasFailedTests && firstError`. -/
def runTests (s : JSObject) (cfg : Config) (nid : Nat) :
    List Event × Option Err × Nat :=
  let r := runTestsAux cfg (discoveredTests s) nid none false
  (r.1, if r.2.2.1 && r.2.1.isSome then r.2.1 else none, r.2.2.2)

/-- `testSuite._suiteMetadata || { name: suiteName, ... }`: the resolved suite
metadata, synthesized from the registry key when absent. -/
def suiteMetaOf (s : JSObject) (suiteName : String) : SuiteMeta :=
  match lookupProp s "_suiteMetadata" with
  | some (Value.suiteMetaVal sm) => sm
  | _ => { name := suiteName
           description := "Test suite for " ++ suiteName
           features := [] }

/-- The sink calls announcing a suite start: `startSuite` plus the three
informational lines (the features line only when `features` is non-empty). -/
def suiteStartEvents (sm : SuiteMeta) (suiteId : Nat) : List Event :=
  [Event.startSuite suiteId sm.name sm.description sm.features,
   Event.logInfo (some suiteId) ("Starting suite: " ++ sm.name),
   Event.logInfo (some suiteId) ("Suite description: " ++ sm.description)]
  ++ (if 0 < sm.features.length
      then [Event.logInfo (some suiteId)
              ("Suite features: " ++ String.intercalate ", " sm.features)]
      else [])

/-- The error line a `catch` block in `runSuite` emits, when the phase threw. -/
def errLogOpt (suiteId : Nat) (msg0 : String) : Option Err → List Event
  | some e => [Event.logError (some suiteId) (msg0 ++ e.message)]
  | none => []

/-- The final sink calls of `runSuite`: the failure log plus
`finishSuite(suiteId, 'failed')` when an error was recorded, otherwise the
success log plus the default-status `finishSuite(suiteId)` (status
`succeeded`). -/
def suiteFinishEvents (sm : SuiteMeta) (suiteId : Nat) : Option Err → List Event
  | some e => [Event.logError (some suiteId) ("Suite failed: " ++ e.message),
               Event.finishSuite suiteId "failed"]
  | none => [Event.logInfo (some suiteId)
               ("Suite completed successfully: " ++ sm.name),
             Event.finishSuite suiteId "succeeded"]

/-- `runSuite` from `src/index.js`: announce the suite, run setup, run the
tests only when setup succeeded, always run teardown, record the first error
of the three phases, announce the finish status, and re-throw the recorded
error.  `nid` is the sink's next fresh identifier; the suite itself takes
identifier `nid`. -/
def runSuite (s : JSObject) (suiteName : String) (cfg : Config) (nid : Nat) :
    List Event × Option Err × Nat :=
  let sm := suiteMetaOf s suiteName
  let cfgS : Config := { cfg with testId := some nid }
  let setupR := runSuiteSetup s cfgS
  let testR := if setupR.2.isNone then runTests s cfgS (nid + 1)
               else ([], none, nid + 1)
  let err1 := if setupR.2.isSome then setupR.2 else testR.2.1
  let tdR := runSuiteTeardown s cfgS
  let suiteError := if err1.isSome then err1 else tdR.2
  (suiteStartEvents sm nid
     ++ setupR.1 ++ errLogOpt nid "Suite setup failed: " setupR.2
     ++ testR.1 ++ errLogOpt nid "Tests execution failed: " testR.2.1
     ++ tdR.1 ++ errLogOpt nid "Suite teardown failed: " tdR.2
     ++ suiteFinishEvents sm nid suiteError,
   suiteError, testR.2.2)

/-- The input of `runTestSuites`: whether `data.logger` is present, the
`testSuites` mapping, the `enabledSuites` selection, and the rest of the
data object. -/
structure RunData where
  hasLogger : Bool
  testSuites : List (String × JSObject)
  enabledSuites : List String
  base : Nat

/-- The suite loop of `runTestSuites`: look each enabled name up in the
mapping, `continue` when absent, otherwise run the suite; a thrown suite
error aborts the loop. -/
def runSuitesAux (suites : List (String × JSObject)) (cfg : Config) :
    List String → Nat → List Event × Option Err
  | [], _ => ([], none)
  | name :: rest, nid =>
    match List.lookup name suites with
    | none => runSuitesAux suites cfg rest nid
    | some s =>
      let r := runSuite s name cfg nid
      match r.2.1 with
      | some e => (r.1, some e)
      | none =>
        let r2 := runSuitesAux suites cfg rest r.2.2
        (r.1 ++ r2.1, r2.2)

/-- `runTestSuites` from `src/index.js`: fail before any suite when the
reporter client is absent, otherwise run the enabled suites in order. -/
def runTestSuites (d : RunData) : List Event × Option Err :=
  if d.hasLogger then
    runSuitesAux d.testSuites { base := d.base, testId := none } d.enabledSuites 0
  else ([], some { message := "Reporter client not initialized" })

/-- The `Test` decorator from `src/decorators.js`:
`if (!descriptor.value.testMetadata) descriptor.value.testMetadata = metadata`. -/
def Test (metadata : TestMeta) (m : Method) : Method :=
  if m.testMetadata.isNone then { m with testMetadata := some metadata } else m

/-- The `Setup` decorator from `src/decorators.js`. -/
def Setup (m : Method) : Method :=
  { m with isSetup := true }

/-- The `Teardown` decorator from `src/decorators.js`. -/
def Teardown (m : Method) : Method :=
  { m with isTeardown := true }

/-! ### Observations on event traces -/

/-- The statuses announced by `finishSuite` calls, in trace order. -/
def finishSuiteStatuses : List Event → List String
  | [] => []
  | Event.finishSuite _ st :: rest => st :: finishSuiteStatuses rest
  | _ :: rest => finishSuiteStatuses rest

/-- The identifiers handed out by `startTest` calls, in trace order. -/
def startTestIds : List Event → List Nat
  | [] => []
  | Event.startTest id _ _ _ _ _ _ :: rest => id :: startTestIds rest
  | _ :: rest => startTestIds rest

/-- The `(testId, status)` pairs announced by `finishTest` calls, in trace
order. -/
def finishTestRecords : List Event → List (Nat × String)
  | [] => []
  | Event.finishTest id st :: rest => (id, st) :: finishTestRecords rest
  | _ :: rest => finishTestRecords rest

/-- The observed procedure invocations `(phase, methodName, argument)`, in
trace order. -/
def invokeRecords : List Event → List (String × String × Config)
  | [] => []
  | Event.invoke ph n arg :: rest => (ph, n, arg) :: invokeRecords rest
  | _ :: rest => invokeRecords rest

/-- The names of the procedures invoked during the test phase, in order. -/
def testInvokeNames (evs : List Event) : List String :=
  ((invokeRecords evs).filter (fun r => r.1 == "test")).map (fun r => r.2.1)

/-- How many times a procedure was invoked as the teardown hook. -/
def teardownInvokeCount (evs : List Event) : Nat :=
  ((invokeRecords evs).filter (fun r => r.1 == "teardown")).length

/-! ### Spec-side descriptions, following the wording of the specification -/

/-- The error the setup procedure of the suite produces when invoked with
`cfg`, if the suite has one and it throws. -/
def setupProducedErr (s : JSObject) (cfg : Config) : Option Err :=
  match findSetupName s with
  | some n =>
    match invokeMethod s n cfg with
    | ProcResult.err e => some e
    | ProcResult.ok _ => none
  | none => none

/-- The result value the setup procedure of the suite produces when invoked
with `cfg`, if the suite has one and it returns normally. -/
def setupResultValue (s : JSObject) (cfg : Config) : Option Nat :=
  match findSetupName s with
  | some n =>
    match invokeMethod s n cfg with
    | ProcResult.ok v => some v
    | ProcResult.err _ => none
  | none => none

/-- The error the teardown procedure of the suite produces when invoked with
`cfg`, if the suite has one and it throws. -/
def teardownProducedErr (s : JSObject) (cfg : Config) : Option Err :=
  match findTeardownName s with
  | some n =>
    match invokeMethod s n cfg with
    | ProcResult.err e => some e
    | ProcResult.ok _ => none
  | none => none

/-- The error of the first test procedure, in discovery order, that throws
when the tests are invoked with their actual arguments (identifier `nid` for
the first test, counting up). -/
def firstTestErr (cfg : Config) :
    List (String × Method × TestMeta) → Nat → Option Err
  | [], _ => none
  | (_, m, _) :: rest, nid =>
    match m.body { cfg with testId := some nid } with
    | ProcResult.err e => some e
    | ProcResult.ok _ => firstTestErr cfg rest (nid + 1)

/-- The first error of a suite invocation in the temporal order setup, then
tests, then teardown, exactly as the specification words it. -/
def firstTemporalError (s : JSObject) (cfg : Config) (nid : Nat) : Option Err :=
  match setupProducedErr s cfg with
  | some e => some e
  | none =>
    match firstTestErr cfg (discoveredTests s) nid with
    | some e => some e
    | none => teardownProducedErr s cfg

/-- `len` consecutive identifiers starting at `start`. -/
def seqIds : Nat → Nat → List Nat
  | _, 0 => []
  | s, n + 1 => s :: seqIds (s + 1) n

/-- The `(testId, status)` pairs the test phase should announce: one per
discovered test in order, consecutive identifiers from `nid`, status
`failed` exactly when that test's body throws at its actual argument. -/
def expectedFinishes (cfg : Config) :
    List (String × Method × TestMeta) → Nat → List (Nat × String)
  | [], _ => []
  | (_, m, _) :: rest, nid =>
    (nid,
      match m.body { cfg with testId := some nid } with
      | ProcResult.err _ => "failed"
      | ProcResult.ok _ => "passed") :: expectedFinishes cfg rest (nid + 1)

/-- The invocation records the test phase produces: each discovered test in
order, phase `test`, argument `cfg` with its fresh test identifier. -/
def testInvokesOf (cfg : Config) :
    List (String × Method × TestMeta) → Nat → List (String × String × Config)
  | [], _ => []
  | (name, _, _) :: rest, nid =>
    ("test", name, { cfg with testId := some nid }) :: testInvokesOf cfg rest (nid + 1)

/-- The invocation record of the setup phase: the discovered hook, invoked
once with `cfg` itself. -/
def setupInvokesOf (s : JSObject) (cfg : Config) : List (String × String × Config) :=
  match findSetupName s with
  | none => []
  | some n => [("setup", n, cfg)]

/-- The invocation record of the teardown phase: the discovered hook, invoked
once with `cfg` itself. -/
def teardownInvokesOf (s : JSObject) (cfg : Config) : List (String × String × Config) :=
  match findTeardownName s with
  | none => []
  | some n => [("teardown", n, cfg)]

/-- The selection filter of the batch orchestrator, as the specification
words it: resolve each enabled name in the mapping, silently dropping names
with no corresponding suite. -/
def selectSuites (suites : List (String × JSObject)) (names : List String) :
    List (String × JSObject) :=
  names.filterMap (fun n => (List.lookup n suites).map (fun s => (n, s)))

/-- The batch policy as the specification words it: run the resolved suites
strictly sequentially in order, and stop the whole batch at the first suite
whose runner throws (no later suite runs). -/
def runSelected (cfg : Config) :
    List (String × JSObject) → Nat → List Event × Option Err
  | [], _ => ([], none)
  | (name, s) :: rest, nid =>
    let r := runSuite s name cfg nid
    match r.2.1 with
    | some e => (r.1, some e)
    | none =>
      let r2 := runSelected cfg rest r.2.2
      (r.1 ++ r2.1, r2.2)

/-! ### Concrete suites used as test vectors and counterexamples -/

/-- A starting run configuration with no current-item identifier. -/
def cfg0 : Config := { base := 0, testId := none }

/-- Metadata of the sample test used by the concrete suites. -/
def sampleMeta : TestMeta :=
  { name := "sample test", description := "d", priority := none
    features := [], service := none }

/-- A suite whose setup returns `r`, with one passing test and a passing
teardown: the vehicle for observing what happens to the setup result. -/
def c1suite (r : Nat) : JSObject :=
  { own := []
    protoChain :=
      [[("mySetup", Value.fn
          { isSetup := true, isTeardown := false, testMetadata := none
            body := fun _ => ProcResult.ok r }),
        ("myTest", Value.fn
          { isSetup := false, isTeardown := false, testMetadata := some sampleMeta
            body := fun _ => ProcResult.ok 0 }),
        ("myTeardown", Value.fn
          { isSetup := false, isTeardown := true, testMetadata := none
            body := fun _ => ProcResult.ok 0 })]] }

/-- A suite with a single procedure that is both setup-flagged and carries
test metadata. -/
def c2suite : JSObject :=
  { own := []
    protoChain :=
      [[("init", Value.fn
          { isSetup := true, isTeardown := false, testMetadata := some sampleMeta
            body := fun _ => ProcResult.ok 0 })]] }

/-- A suite whose setup throws `boom-setup` and whose teardown throws
`boom-td`. -/
def c4suite : JSObject :=
  { own := []
    protoChain :=
      [[("s", Value.fn
          { isSetup := true, isTeardown := false, testMetadata := none
            body := fun _ => ProcResult.err { message := "boom-setup" } }),
        ("d", Value.fn
          { isSetup := false, isTeardown := true, testMetadata := none
            body := fun _ => ProcResult.err { message := "boom-td" } })]] }

/-- A suite with three tests of which the middle one throws. -/
def c7suite : JSObject :=
  { own := []
    protoChain :=
      [[("t1", Value.fn
          { isSetup := false, isTeardown := false, testMetadata := some sampleMeta
            body := fun _ => ProcResult.ok 1 }),
        ("t2", Value.fn
          { isSetup := false, isTeardown := false, testMetadata := some sampleMeta
            body := fun _ => ProcResult.err { message := "boom-t2" } }),
        ("t3", Value.fn
          { isSetup := false, isTeardown := false, testMetadata := some sampleMeta
            body := fun _ => ProcResult.ok 3 })]] }

/-- A suite whose immediate prototype owns a non-function property `t` while
the instance itself owns a metadata-tagged function property `t`: the
instance property shadows the prototype one during lookup. -/
def c10suite : JSObject :=
  { own := [("t", Value.fn
      { isSetup := false, isTeardown := false, testMetadata := some sampleMeta
        body := fun _ => ProcResult.err { message := "from-instance" } })]
    protoChain := [[("t", Value.dataVal 0)]] }

/-! ### Helper lemmas: trace observations distribute over concatenation -/

theorem finishSuiteStatuses_append (a b : List Event) :
    finishSuiteStatuses (a ++ b) = finishSuiteStatuses a ++ finishSuiteStatuses b := by
  induction a with
  | nil => simp [finishSuiteStatuses]
  | cons e rest ih => cases e <;> simp [finishSuiteStatuses, ih]

theorem startTestIds_append (a b : List Event) :
    startTestIds (a ++ b) = startTestIds a ++ startTestIds b := by
  induction a with
  | nil => simp [startTestIds]
  | cons e rest ih => cases e <;> simp [startTestIds, ih]

theorem finishTestRecords_append (a b : List Event) :
    finishTestRecords (a ++ b) = finishTestRecords a ++ finishTestRecords b := by
  induction a with
  | nil => simp [finishTestRecords]
  | cons e rest ih => cases e <;> simp [finishTestRecords, ih]

theorem invokeRecords_append (a b : List Event) :
    invokeRecords (a ++ b) = invokeRecords a ++ invokeRecords b := by
  induction a with
  | nil => simp [invokeRecords]
  | cons e rest ih => cases e <;> simp [invokeRecords, ih]

/-! ### Helper lemmas: the setup and teardown phases -/

theorem runSuiteSetup_snd (s : JSObject) (cfg : Config) :
    (runSuiteSetup s cfg).2 = setupProducedErr s cfg := by
  cases h : findSetupName s with
  | none => simp [runSuiteSetup, setupProducedErr, h]
  | some n =>
    cases hb : invokeMethod s n cfg <;>
      simp [runSuiteSetup, setupProducedErr, h, hb]

theorem runSuiteTeardown_snd (s : JSObject) (cfg : Config) :
    (runSuiteTeardown s cfg).2 = teardownProducedErr s cfg := by
  cases h : findTeardownName s with
  | none => simp [runSuiteTeardown, teardownProducedErr, h]
  | some n =>
    cases hb : invokeMethod s n cfg <;>
      simp [runSuiteTeardown, teardownProducedErr, h, hb]

theorem finishSuiteStatuses_runSuiteSetup (s : JSObject) (cfg : Config) :
    finishSuiteStatuses (runSuiteSetup s cfg).1 = [] := by
  cases h : findSetupName s with
  | none => simp [runSuiteSetup, finishSuiteStatuses, h]
  | some n =>
    cases hb : invokeMethod s n cfg <;>
      simp [runSuiteSetup, finishSuiteStatuses, h, hb]

theorem finishSuiteStatuses_runSuiteTeardown (s : JSObject) (cfg : Config) :
    finishSuiteStatuses (runSuiteTeardown s cfg).1 = [] := by
  cases h : findTeardownName s with
  | none => simp [runSuiteTeardown, finishSuiteStatuses, h]
  | some n =>
    cases hb : invokeMethod s n cfg <;>
      simp [runSuiteTeardown, finishSuiteStatuses, h, hb]

theorem startTestIds_runSuiteSetup (s : JSObject) (cfg : Config) :
    startTestIds (runSuiteSetup s cfg).1 = [] := by
  cases h : findSetupName s with
  | none => simp [runSuiteSetup, startTestIds, h]
  | some n =>
    cases hb : invokeMethod s n cfg <;>
      simp [runSuiteSetup, startTestIds, h, hb]

theorem startTestIds_runSuiteTeardown (s : JSObject) (cfg : Config) :
    startTestIds (runSuiteTeardown s cfg).1 = [] := by
  cases h : findTeardownName s with
  | none => simp [runSuiteTeardown, startTestIds, h]
  | some n =>
    cases hb : invokeMethod s n cfg <;>
      simp [runSuiteTeardown, startTestIds, h, hb]

theorem finishTestRecords_runSuiteSetup (s : JSObject) (cfg : Config) :
    finishTestRecords (runSuiteSetup s cfg).1 = [] := by
  cases h : findSetupName s with
  | none => simp [runSuiteSetup, finishTestRecords, h]
  | some n =>
    cases hb : invokeMethod s n cfg <;>
      simp [runSuiteSetup, finishTestRecords, h, hb]

theorem finishTestRecords_runSuiteTeardown (s : JSObject) (cfg : Config) :
    finishTestRecords (runSuiteTeardown s cfg).1 = [] := by
  cases h : findTeardownName s with
  | none => simp [runSuiteTeardown, finishTestRecords, h]
  | some n =>
    cases hb : invokeMethod s n cfg <;>
      simp [runSuiteTeardown, finishTestRecords, h, hb]

theorem invokeRecords_runSuiteSetup (s : JSObject) (cfg : Config) :
    invokeRecords (runSuiteSetup s cfg).1 = setupInvokesOf s cfg := by
  cases h : findSetupName s with
  | none => simp [runSuiteSetup, invokeRecords, setupInvokesOf, h]
  | some n =>
    cases hb : invokeMethod s n cfg <;>
      simp [runSuiteSetup, invokeRecords, setupInvokesOf, h, hb]

theorem invokeRecords_runSuiteTeardown (s : JSObject) (cfg : Config) :
    invokeRecords (runSuiteTeardown s cfg).1 = teardownInvokesOf s cfg := by
  cases h : findTeardownName s with
  | none => simp [runSuiteTeardown, invokeRecords, teardownInvokesOf, h]
  | some n =>
    cases hb : invokeMethod s n cfg <;>
      simp [runSuiteTeardown, invokeRecords, teardownInvokesOf, h, hb]

/-! ### Helper lemmas: the fixed suite-level event segments -/

theorem finishSuiteStatuses_suiteStartEvents (sm : SuiteMeta) (id : Nat) :
    finishSuiteStatuses (suiteStartEvents sm id) = [] := by
  by_cases h : 0 < sm.features.length <;>
    simp [suiteStartEvents, finishSuiteStatuses, h]

theorem startTestIds_suiteStartEvents (sm : SuiteMeta) (id : Nat) :
    startTestIds (suiteStartEvents sm id) = [] := by
  by_cases h : 0 < sm.features.length <;>
    simp [suiteStartEvents, startTestIds, h]

theorem finishTestRecords_suiteStartEvents (sm : SuiteMeta) (id : Nat) :
    finishTestRecords (suiteStartEvents sm id) = [] := by
  by_cases h : 0 < sm.features.length <;>
    simp [suiteStartEvents, finishTestRecords, h]

theorem invokeRecords_suiteStartEvents (sm : SuiteMeta) (id : Nat) :
    invokeRecords (suiteStartEvents sm id) = [] := by
  by_cases h : 0 < sm.features.length <;>
    simp [suiteStartEvents, invokeRecords, h]

theorem finishSuiteStatuses_errLogOpt (id : Nat) (m : String) (o : Option Err) :
    finishSuiteStatuses (errLogOpt id m o) = [] := by
  cases o <;> simp [errLogOpt, finishSuiteStatuses]

theorem startTestIds_errLogOpt (id : Nat) (m : String) (o : Option Err) :
    startTestIds (errLogOpt id m o) = [] := by
  cases o <;> simp [errLogOpt, startTestIds]

theorem finishTestRecords_errLogOpt (id : Nat) (m : String) (o : Option Err) :
    finishTestRecords (errLogOpt id m o) = [] := by
  cases o <;> simp [errLogOpt, finishTestRecords]

theorem invokeRecords_errLogOpt (id : Nat) (m : String) (o : Option Err) :
    invokeRecords (errLogOpt id m o) = [] := by
  cases o <;> simp [errLogOpt, invokeRecords]

theorem finishSuiteStatuses_suiteFinishEvents (sm : SuiteMeta) (id : Nat) (o : Option Err) :
    finishSuiteStatuses (suiteFinishEvents sm id o) =
      [if o.isSome then "failed" else "succeeded"] := by
  cases o <;> simp [suiteFinishEvents, finishSuiteStatuses]

theorem startTestIds_suiteFinishEvents (sm : SuiteMeta) (id : Nat) (o : Option Err) :
    startTestIds (suiteFinishEvents sm id o) = [] := by
  cases o <;> simp [suiteFinishEvents, startTestIds]

theorem finishTestRecords_suiteFinishEvents (sm : SuiteMeta) (id : Nat) (o : Option Err) :
    finishTestRecords (suiteFinishEvents sm id o) = [] := by
  cases o <;> simp [suiteFinishEvents, finishTestRecords]

theorem invokeRecords_suiteFinishEvents (sm : SuiteMeta) (id : Nat) (o : Option Err) :
    invokeRecords (suiteFinishEvents sm id o) = [] := by
  cases o <;> simp [suiteFinishEvents, invokeRecords]

/-! ### Helper lemmas: the per-test loop -/

theorem finishSuiteStatuses_runTestsAux (cfg : Config)
    (ts : List (String × Method × TestMeta)) :
    ∀ nid fe hf, finishSuiteStatuses (runTestsAux cfg ts nid fe hf).1 = [] := by
  induction ts with
  | nil => intro nid fe hf; simp [runTestsAux, finishSuiteStatuses]
  | cons t rest ih =>
    intro nid fe hf
    obtain ⟨name, m, meta⟩ := t
    cases hb : m.body { cfg with testId := some nid } <;>
      simp [runTestsAux, hb, finishSuiteStatuses_append, finishSuiteStatuses, ih]

theorem startTestIds_runTestsAux (cfg : Config)
    (ts : List (String × Method × TestMeta)) :
    ∀ nid fe hf, startTestIds (runTestsAux cfg ts nid fe hf).1 = seqIds nid ts.length := by
  induction ts with
  | nil => intro nid fe hf; simp [runTestsAux, startTestIds, seqIds]
  | cons t rest ih =>
    intro nid fe hf
    obtain ⟨name, m, meta⟩ := t
    cases hb : m.body { cfg with testId := some nid } <;>
      simp [runTestsAux, hb, startTestIds_append, startTestIds, seqIds, ih]

theorem finishTestRecords_runTestsAux (cfg : Config)
    (ts : List (String × Method × TestMeta)) :
    ∀ nid fe hf, finishTestRecords (runTestsAux cfg ts nid fe hf).1 =
      expectedFinishes cfg ts nid := by
  induction ts with
  | nil => intro nid fe hf; simp [runTestsAux, finishTestRecords, expectedFinishes]
  | cons t rest ih =>
    intro nid fe hf
    obtain ⟨name, m, meta⟩ := t
    cases hb : m.body { cfg with testId := some nid } <;>
      simp [runTestsAux, hb, finishTestRecords_append, finishTestRecords,
        expectedFinishes, ih]

theorem invokeRecords_runTestsAux (cfg : Config)
    (ts : List (String × Method × TestMeta)) :
    ∀ nid fe hf, invokeRecords (runTestsAux cfg ts nid fe hf).1 =
      testInvokesOf cfg ts nid := by
  induction ts with
  | nil => intro nid fe hf; simp [runTestsAux, invokeRecords, testInvokesOf]
  | cons t rest ih =>
    intro nid fe hf
    obtain ⟨name, m, meta⟩ := t
    cases hb : m.body { cfg with testId := some nid } <;>
      simp [runTestsAux, hb, invokeRecords_append, invokeRecords, testInvokesOf, ih]

theorem runTestsAux_firstError (cfg : Config)
    (ts : List (String × Method × TestMeta)) :
    ∀ nid fe hf, (runTestsAux cfg ts nid fe hf).2.1 =
      if fe.isSome then fe else firstTestErr cfg ts nid := by
  induction ts with
  | nil => intro nid fe hf; cases fe <;> simp [runTestsAux, firstTestErr]
  | cons t rest ih =>
    intro nid fe hf
    obtain ⟨name, m, meta⟩ := t
    cases hb : m.body { cfg with testId := some nid } with
    | ok v => simp [runTestsAux, hb, firstTestErr, ih]
    | err e => cases fe <;> simp [runTestsAux, hb, firstTestErr, ih]

theorem runTestsAux_hasFailed (cfg : Config)
    (ts : List (String × Method × TestMeta)) :
    ∀ nid fe hf, (runTestsAux cfg ts nid fe hf).2.2.1 =
      (hf || (firstTestErr cfg ts nid).isSome) := by
  induction ts with
  | nil => intro nid fe hf; simp [runTestsAux, firstTestErr]
  | cons t rest ih =>
    intro nid fe hf
    obtain ⟨name, m, meta⟩ := t
    cases hb : m.body { cfg with testId := some nid } with
    | ok v => simp [runTestsAux, hb, firstTestErr, ih]
    | err e => simp [runTestsAux, hb, firstTestErr, ih]

theorem runTests_fst (s : JSObject) (cfg : Config) (nid : Nat) :
    (runTests s cfg nid).1 = (runTestsAux cfg (discoveredTests s) nid none false).1 :=
  rfl

theorem runTests_err (s : JSObject) (cfg : Config) (nid : Nat) :
    (runTests s cfg nid).2.1 = firstTestErr cfg (discoveredTests s) nid := by
  simp only [runTests]
  rw [runTestsAux_firstError, runTestsAux_hasFailed]
  cases h : firstTestErr cfg (discoveredTests s) nid <;> simp [h]

/-! ### Helper lemmas: assembling a whole suite invocation -/

theorem runSuite_err (s : JSObject) (suiteName : String) (cfg : Config) (nid : Nat) :
    (runSuite s suiteName cfg nid).2.1 =
      firstTemporalError s { cfg with testId := some nid } (nid + 1) := by
  cases hs : setupProducedErr s { cfg with testId := some nid } with
  | some e =>
    simp [runSuite, runSuiteSetup_snd, hs, firstTemporalError]
  | none =>
    cases ht : firstTestErr { cfg with testId := some nid } (discoveredTests s) (nid + 1) with
    | some e =>
      simp [runSuite, runSuiteSetup_snd, hs, runTests_err, ht, firstTemporalError]
    | none =>
      simp [runSuite, runSuiteSetup_snd, runSuiteTeardown_snd, hs, runTests_err, ht,
        firstTemporalError]

theorem runSuite_statuses (s : JSObject) (suiteName : String) (cfg : Config) (nid : Nat) :
    finishSuiteStatuses (runSuite s suiteName cfg nid).1 =
      [if (firstTemporalError s { cfg with testId := some nid } (nid + 1)).isSome
       then "failed" else "succeeded"] := by
  cases hs : setupProducedErr s { cfg with testId := some nid } with
  | some e =>
    simp [runSuite, runSuiteSetup_snd, hs, firstTemporalError,
      finishSuiteStatuses_append, finishSuiteStatuses_suiteStartEvents,
      finishSuiteStatuses_runSuiteSetup, finishSuiteStatuses_errLogOpt,
      finishSuiteStatuses_runSuiteTeardown, finishSuiteStatuses_suiteFinishEvents]
  | none =>
    cases ht : firstTestErr { cfg with testId := some nid } (discoveredTests s) (nid + 1) with
    | some e =>
      simp [runSuite, runSuiteSetup_snd, hs, runTests_err, runTests_fst, ht,
        firstTemporalError, finishSuiteStatuses_append,
        finishSuiteStatuses_suiteStartEvents, finishSuiteStatuses_runSuiteSetup,
        finishSuiteStatuses_errLogOpt, finishSuiteStatuses_runTestsAux,
        finishSuiteStatuses_runSuiteTeardown, finishSuiteStatuses_suiteFinishEvents]
    | none =>
      simp [runSuite, runSuiteSetup_snd, runSuiteTeardown_snd, hs, runTests_err,
        runTests_fst, ht, firstTemporalError, finishSuiteStatuses_append,
        finishSuiteStatuses_suiteStartEvents, finishSuiteStatuses_runSuiteSetup,
        finishSuiteStatuses_errLogOpt, finishSuiteStatuses_runTestsAux,
        finishSuiteStatuses_runSuiteTeardown, finishSuiteStatuses_suiteFinishEvents]

theorem runSuite_invokes (s : JSObject) (suiteName : String) (cfg : Config) (nid : Nat) :
    invokeRecords (runSuite s suiteName cfg nid).1 =
      setupInvokesOf s { cfg with testId := some nid }
      ++ (if (setupProducedErr s { cfg with testId := some nid }).isNone
          then testInvokesOf { cfg with testId := some nid } (discoveredTests s) (nid + 1)
          else [])
      ++ teardownInvokesOf s { cfg with testId := some nid } := by
  cases hs : setupProducedErr s { cfg with testId := some nid } <;>
    simp [runSuite, runSuiteSetup_snd, hs, runTests_fst, invokeRecords_append,
      invokeRecords_suiteStartEvents, invokeRecords_runSuiteSetup,
      invokeRecords_errLogOpt, invokeRecords_runTestsAux,
      invokeRecords_runSuiteTeardown, invokeRecords_suiteFinishEvents]

theorem runSuite_startTestIds (s : JSObject) (suiteName : String) (cfg : Config) (nid : Nat) :
    startTestIds (runSuite s suiteName cfg nid).1 =
      (if (setupProducedErr s { cfg with testId := some nid }).isNone
       then seqIds (nid + 1) (discoveredTests s).length
       else []) := by
  cases hs : setupProducedErr s { cfg with testId := some nid } <;>
    simp [runSuite, runSuiteSetup_snd, hs, runTests_fst, startTestIds_append,
      startTestIds_suiteStartEvents, startTestIds_runSuiteSetup,
      startTestIds_errLogOpt, startTestIds_runTestsAux,
      startTestIds_runSuiteTeardown, startTestIds_suiteFinishEvents]

theorem runSuite_finishTestRecords (s : JSObject) (suiteName : String)
    (cfg : Config) (nid : Nat) :
    finishTestRecords (runSuite s suiteName cfg nid).1 =
      (if (setupProducedErr s { cfg with testId := some nid }).isNone
       then expectedFinishes { cfg with testId := some nid } (discoveredTests s) (nid + 1)
       else []) := by
  cases hs : setupProducedErr s { cfg with testId := some nid } <;>
    simp [runSuite, runSuiteSetup_snd, hs, runTests_fst, finishTestRecords_append,
      finishTestRecords_suiteStartEvents, finishTestRecords_runSuiteSetup,
      finishTestRecords_errLogOpt, finishTestRecords_runTestsAux,
      finishTestRecords_runSuiteTeardown, finishTestRecords_suiteFinishEvents]

/-! ### Helper lemmas: shapes of the invocation-record segments -/

theorem mem_testInvokesOf (cfg : Config) (ts : List (String × Method × TestMeta)) :
    ∀ nid r, r ∈ testInvokesOf cfg ts nid →
      r.1 = "test" ∧ r.2.1 ∈ ts.map (fun x => x.1) ∧
      ∃ t : Nat, r.2.2 = { cfg with testId := some t } := by
  induction ts with
  | nil => intro nid r hr; simp [testInvokesOf] at hr
  | cons t rest ih =>
    intro nid r hr
    obtain ⟨name, m, meta⟩ := t
    rcases (by simpa [testInvokesOf] using hr :
        r = ("test", name, { cfg with testId := some nid }) ∨
          r ∈ testInvokesOf cfg rest (nid + 1)) with h | h
    · subst h; exact ⟨rfl, by simp, nid, rfl⟩
    · obtain ⟨h1, h2, t, h3⟩ := ih (nid + 1) r h
      exact ⟨h1, by simp [h2], t, h3⟩

theorem testInvokesOf_filter_teardown (cfg : Config)
    (ts : List (String × Method × TestMeta)) :
    ∀ nid, (testInvokesOf cfg ts nid).filter (fun r => r.1 == "teardown") = [] := by
  induction ts with
  | nil => intro nid; simp [testInvokesOf]
  | cons t rest ih =>
    intro nid
    obtain ⟨name, m, meta⟩ := t
    simp [testInvokesOf, ih]

theorem testInvokesOf_filter_test (cfg : Config)
    (ts : List (String × Method × TestMeta)) :
    ∀ nid, (testInvokesOf cfg ts nid).filter (fun r => r.1 == "test") =
      testInvokesOf cfg ts nid := by
  induction ts with
  | nil => intro nid; simp [testInvokesOf]
  | cons t rest ih =>
    intro nid
    obtain ⟨name, m, meta⟩ := t
    simp [testInvokesOf, ih]

theorem testInvokesOf_names (cfg : Config) (ts : List (String × Method × TestMeta)) :
    ∀ nid, (testInvokesOf cfg ts nid).map (fun r => r.2.1) =
      ts.map (fun x => x.1) := by
  induction ts with
  | nil => intro nid; simp [testInvokesOf]
  | cons t rest ih =>
    intro nid
    obtain ⟨name, m, meta⟩ := t
    simp [testInvokesOf, ih]

theorem setupInvokesOf_filter_teardown (s : JSObject) (cfg : Config) :
    (setupInvokesOf s cfg).filter (fun r => r.1 == "teardown") = [] := by
  cases h : findSetupName s <;> simp [setupInvokesOf, h]

theorem setupInvokesOf_filter_test (s : JSObject) (cfg : Config) :
    (setupInvokesOf s cfg).filter (fun r => r.1 == "test") = [] := by
  cases h : findSetupName s <;> simp [setupInvokesOf, h]

theorem teardownInvokesOf_filter_teardown (s : JSObject) (cfg : Config) :
    (teardownInvokesOf s cfg).filter (fun r => r.1 == "teardown") =
      teardownInvokesOf s cfg := by
  cases h : findTeardownName s <;> simp [teardownInvokesOf, h]

theorem teardownInvokesOf_filter_test (s : JSObject) (cfg : Config) :
    (teardownInvokesOf s cfg).filter (fun r => r.1 == "test") = [] := by
  cases h : findTeardownName s <;> simp [teardownInvokesOf, h]

theorem teardownInvokesOf_length (s : JSObject) (cfg : Config) :
    (teardownInvokesOf s cfg).length = if (findTeardownName s).isSome then 1 else 0 := by
  cases h : findTeardownName s <;> simp [teardownInvokesOf, h]

/-! ### Helper lemmas: discovery and the spec-side error selectors -/

theorem discoveredTests_names (s : JSObject) :
    (discoveredTests s).map (fun x => x.1) =
      (protoOwnNames s).filter (fun n => (valTestMetadata (lookupProp s n)).isSome) := by
  unfold discoveredTests
  induction protoOwnNames s with
  | nil => simp
  | cons n rest ih =>
    cases hv : lookupProp s n with
    | none => simpa [hv, valTestMetadata] using ih
    | some v =>
      cases v with
      | fn m =>
        cases hm : m.testMetadata <;>
          simpa [hv, hm, valTestMetadata] using ih
      | suiteMetaVal sm => simpa [hv, valTestMetadata] using ih
      | dataVal k => simpa [hv, valTestMetadata] using ih

theorem expectedFinishes_status (cfg : Config) (ts : List (String × Method × TestMeta)) :
    ∀ nid p, p ∈ expectedFinishes cfg ts nid → p.2 = "passed" ∨ p.2 = "failed" := by
  induction ts with
  | nil => intro nid p hp; simp [expectedFinishes] at hp
  | cons t rest ih =>
    intro nid p hp
    obtain ⟨name, m, meta⟩ := t
    rcases (by simpa [expectedFinishes] using hp :
        p = (nid, match m.body { cfg with testId := some nid } with
                  | ProcResult.err _ => "failed"
                  | ProcResult.ok _ => "passed") ∨
          p ∈ expectedFinishes cfg rest (nid + 1)) with h | h
    · subst h
      cases hb : m.body { cfg with testId := some nid } <;> simp [hb]
    · exact ih (nid + 1) p h

theorem firstTemporalError_isSome (s : JSObject) (cfg : Config) (nid : Nat) :
    (firstTemporalError s cfg nid).isSome =
      ((setupProducedErr s cfg).isSome
        || (firstTestErr cfg (discoveredTests s) nid).isSome
        || (teardownProducedErr s cfg).isSome) := by
  cases h1 : setupProducedErr s cfg with
  | some e => simp [firstTemporalError, h1]
  | none =>
    cases h2 : firstTestErr cfg (discoveredTests s) nid with
    | some e => simp [firstTemporalError, h1, h2]
    | none => simp [firstTemporalError, h1, h2]

theorem mem_runSuiteTeardown_errlog (s : JSObject) (cfg : Config) (e : Err)
    (h : teardownProducedErr s cfg = some e) :
    Event.logError cfg.testId ("Suite teardown failed: " ++ e.message) ∈
      (runSuiteTeardown s cfg).1 := by
  unfold teardownProducedErr at h
  cases hf : findTeardownName s with
  | none => rw [hf] at h; exact absurd h (by simp)
  | some n =>
    cases hb : invokeMethod s n cfg with
    | ok v => rw [hf] at h; simp [hb] at h
    | err e2 =>
      rw [hf] at h
      simp only [hb] at h
      obtain rfl : e2 = e := by simpa using h
      simp [runSuiteTeardown, hf, hb]

/-! ### Helper lemma: the batch loop as filter-then-run -/

theorem runSuitesAux_eq_runSelected (suites : List (String × JSObject))
    (cfg : Config) (names : List String) :
    ∀ nid, runSuitesAux suites cfg names nid =
      runSelected cfg (selectSuites suites names) nid := by
  induction names with
  | nil => intro nid; simp [runSuitesAux, selectSuites, runSelected]
  | cons n rest ih =>
    intro nid
    cases h : List.lookup n suites with
    | none => simp [runSuitesAux, selectSuites, h, ih]
    | some s =>
      cases hr : (runSuite s n cfg nid).2.1 <;>
        simp [runSuitesAux, selectSuites, runSelected, h, hr, ih]

theorem teardownInvokeCount_runSuite (s : JSObject) (suiteName : String)
    (cfg : Config) (nid : Nat) :
    teardownInvokeCount (runSuite s suiteName cfg nid).1 =
      if (findTeardownName s).isSome then 1 else 0 := by
  unfold teardownInvokeCount
  rw [runSuite_invokes]
  cases hs : setupProducedErr s { cfg with testId := some nid } <;>
    simp [hs, List.filter_append, setupInvokesOf_filter_teardown,
      testInvokesOf_filter_teardown, teardownInvokesOf_filter_teardown,
      teardownInvokesOf_length]

theorem mem_runSuite_of_mem_teardown (s : JSObject) (suiteName : String)
    (cfg : Config) (nid : Nat) (x : Event)
    (hx : x ∈ (runSuiteTeardown s { cfg with testId := some nid }).1) :
    x ∈ (runSuite s suiteName cfg nid).1 := by
  simp only [runSuite, List.mem_append]
  tauto

/-! ### Claim theorems -/

/-- C1, counterexample: the claim that the setup result is threaded unchanged
into every test procedure and into the teardown procedure is false.  The two
suites below differ only in the value their setup procedure returns (7
versus 8); both setups produce their result value, yet the two suite
invocations are completely identical — in particular every procedure is
invoked with the same argument in both runs, and the argument list of the
run contains only the run configuration extended with an item identifier, so
neither 7 nor 8 is ever passed to the test or the teardown. -/
theorem setup_result_discarded_counterexample :
    setupResultValue (c1suite 7) { base := 0, testId := some 0 } = some 7 ∧
    setupResultValue (c1suite 8) { base := 0, testId := some 0 } = some 8 ∧
    invokeRecords (runSuite (c1suite 7) "S" cfg0 0).1 =
      [("setup", "mySetup", { base := 0, testId := some 0 }),
       ("test", "myTest", { base := 0, testId := some 1 }),
       ("teardown", "myTeardown", { base := 0, testId := some 0 })] ∧
    runSuite (c1suite 7) "S" cfg0 0 = runSuite (c1suite 8) "S" cfg0 0 :=
  ⟨by decide, by decide, by decide, by decide⟩

/-- C1, amended: the suite runner discards the setup result.  Every
procedure invocation of a suite run — setup, every test, and teardown —
receives exactly the incoming run configuration extended with an item
identifier; no setup result value is passed to any of them. -/
theorem procedures_receive_config_only (s : JSObject) (suiteName : String)
    (cfg : Config) (nid : Nat) :
    ∀ r ∈ invokeRecords (runSuite s suiteName cfg nid).1,
      ∃ t : Nat, r.2.2 = { base := cfg.base, testId := some t } := by
  intro r hr
  rw [runSuite_invokes] at hr
  rcases List.mem_append.mp hr with h | h
  · rcases List.mem_append.mp h with h | h
    · unfold setupInvokesOf at h
      cases hf : findSetupName s with
      | none => rw [hf] at h; simp at h
      | some n =>
        rw [hf] at h
        simp only [List.mem_singleton] at h
        subst h
        exact ⟨nid, rfl⟩
    · cases hs : setupProducedErr s { cfg with testId := some nid } with
      | some e => simp [hs] at h
      | none =>
        simp only [hs, Option.isNone_none, if_true] at h
        obtain ⟨-, -, t, h3⟩ := mem_testInvokesOf _ (discoveredTests s) (nid + 1) r h
        exact ⟨t, by simpa using h3⟩
  · unfold teardownInvokesOf at h
    cases hf : findTeardownName s with
    | none => rw [hf] at h; simp at h
    | some n =>
      rw [hf] at h
      simp only [List.mem_singleton] at h
      subst h
      exact ⟨nid, rfl⟩

/-- C1, witness for the amended theorem at a concrete suite invocation. -/
theorem procedures_receive_config_only_witness :
    (("setup", "mySetup", ({ base := 0, testId := some 0 } : Config)) ∈
      invokeRecords (runSuite (c1suite 7) "S" cfg0 0).1) ∧
    ∃ t : Nat, ({ base := 0, testId := some 0 } : Config) =
      { base := cfg0.base, testId := some t } :=
  ⟨by decide, procedures_receive_config_only (c1suite 7) "S" cfg0 0
    ("setup", "mySetup", { base := 0, testId := some 0 }) (by decide)⟩

/-- C2, counterexample: a procedure that is setup-flagged and also carries
test metadata is invoked as the suite's setup hook *and* again as a test, so
hook flags do not exclude a procedure from the test phase. -/
theorem hook_flagged_procedure_runs_as_test_counterexample :
    valIsSetup (lookupProp c2suite "init") = true ∧
    (valTestMetadata (lookupProp c2suite "init")).isSome = true ∧
    ("setup", "init", ({ base := 0, testId := some 0 } : Config)) ∈
      invokeRecords (runSuite c2suite "S" cfg0 0).1 ∧
    ("test", "init", ({ base := 0, testId := some 1 } : Config)) ∈
      invokeRecords (runSuite c2suite "S" cfg0 0).1 :=
  ⟨by decide, by decide, by decide, by decide⟩

/-- C2, amended: when setup succeeds, the test phase invokes exactly the
prototype own-named procedures whose looked-up value is a function carrying
test metadata, in discovery order — the filter does not consult the
`isSetup`/`isTeardown` hook flags at all. -/
theorem test_phase_runs_all_metadata_procedures (s : JSObject)
    (suiteName : String) (cfg : Config) (nid : Nat)
    (h : setupProducedErr s { cfg with testId := some nid } = none) :
    testInvokeNames (runSuite s suiteName cfg nid).1 =
      (protoOwnNames s).filter
        (fun n => (valTestMetadata (lookupProp s n)).isSome) := by
  unfold testInvokeNames
  rw [runSuite_invokes]
  simp [h, List.filter_append, setupInvokesOf_filter_test,
    teardownInvokesOf_filter_test, testInvokesOf_filter_test,
    testInvokesOf_names, discoveredTests_names]

/-- C2, witness for the amended theorem: on the concrete suite the
setup-flagged, metadata-carrying procedure is exactly what the test phase
runs. -/
theorem test_phase_runs_all_metadata_procedures_witness :
    setupProducedErr c2suite { cfg0 with testId := some 0 } = none ∧
    testInvokeNames (runSuite c2suite "S" cfg0 0).1 =
      (protoOwnNames c2suite).filter
        (fun n => (valTestMetadata (lookupProp c2suite n)).isSome) :=
  ⟨by decide, test_phase_runs_all_metadata_procedures c2suite "S" cfg0 0 (by decide)⟩

/-- C3: the status announced by the suite's `finishSuite` call is `failed`
exactly when setup, some test, or teardown produced an error during the
invocation, and `succeeded` otherwise. -/
theorem suite_status_failed_iff_phase_error (s : JSObject) (suiteName : String)
    (cfg : Config) (nid : Nat) :
    finishSuiteStatuses (runSuite s suiteName cfg nid).1 =
      [if ((setupProducedErr s { cfg with testId := some nid }).isSome
            || (firstTestErr { cfg with testId := some nid }
                  (discoveredTests s) (nid + 1)).isSome
            || (teardownProducedErr s { cfg with testId := some nid }).isSome)
       then "failed" else "succeeded"] := by
  rw [runSuite_statuses, firstTemporalError_isSome]

/-- C4: the error the suite runner re-throws is the first error in the
temporal order setup, then tests, then teardown; a later error never
replaces it, and a teardown error is still logged even when an earlier error
was already recorded. -/
theorem rethrown_error_is_first_temporal (s : JSObject) (suiteName : String)
    (cfg : Config) (nid : Nat) :
    (runSuite s suiteName cfg nid).2.1 =
      firstTemporalError s { cfg with testId := some nid } (nid + 1) ∧
    ∀ e : Err, teardownProducedErr s { cfg with testId := some nid } = some e →
      Event.logError (some nid) ("Suite teardown failed: " ++ e.message) ∈
        (runSuite s suiteName cfg nid).1 := by
  refine ⟨runSuite_err s suiteName cfg nid, ?_⟩
  intro e he
  exact mem_runSuite_of_mem_teardown s suiteName cfg nid _
    (mem_runSuiteTeardown_errlog s { cfg with testId := some nid } e he)

/-- C4, witness: with a failing setup and a failing teardown, the re-thrown
error is the setup error, while the teardown error is still logged. -/
theorem rethrown_error_is_first_temporal_witness :
    (runSuite c4suite "S" cfg0 0).2.1 = some { message := "boom-setup" } ∧
    teardownProducedErr c4suite { cfg0 with testId := some 0 } =
      some { message := "boom-td" } ∧
    Event.logError (some 0) ("Suite teardown failed: " ++ "boom-td") ∈
      (runSuite c4suite "S" cfg0 0).1 := by
  refine ⟨?_, by decide, ?_⟩
  · rw [(rethrown_error_is_first_temporal c4suite "S" cfg0 0).1]; decide
  · exact (rethrown_error_is_first_temporal c4suite "S" cfg0 0).2
      { message := "boom-td" } (by decide)

/-- C5: the teardown hook, when the suite has one, is invoked exactly once
per suite invocation, whatever setup and the tests did. -/
theorem teardown_invoked_exactly_once (s : JSObject) (suiteName : String)
    (cfg : Config) (nid : Nat) :
    teardownInvokeCount (runSuite s suiteName cfg nid).1 =
      if (findTeardownName s).isSome then 1 else 0 :=
  teardownInvokeCount_runSuite s suiteName cfg nid

/-- C6: when setup throws, no `startTest` call is made and no test procedure
is invoked, the teardown hook still runs exactly once, and the suite
announces status `failed`. -/
theorem setup_failure_skips_tests (s : JSObject) (suiteName : String)
    (cfg : Config) (nid : Nat)
    (h : (setupProducedErr s { cfg with testId := some nid }).isSome = true) :
    startTestIds (runSuite s suiteName cfg nid).1 = [] ∧
    testInvokeNames (runSuite s suiteName cfg nid).1 = [] ∧
    teardownInvokeCount (runSuite s suiteName cfg nid).1 =
      (if (findTeardownName s).isSome then 1 else 0) ∧
    finishSuiteStatuses (runSuite s suiteName cfg nid).1 = ["failed"] := by
  obtain ⟨e, he⟩ := Option.isSome_iff_exists.mp h
  refine ⟨?_, ?_, teardownInvokeCount_runSuite s suiteName cfg nid, ?_⟩
  · rw [runSuite_startTestIds]; simp [he]
  · unfold testInvokeNames
    rw [runSuite_invokes]
    simp [he, List.filter_append, setupInvokesOf_filter_test,
      teardownInvokesOf_filter_test]
  · rw [runSuite_statuses]
    simp [firstTemporalError, he]

/-- C6, witness at the concrete suite whose setup throws. -/
theorem setup_failure_skips_tests_witness :
    startTestIds (runSuite c4suite "S" cfg0 0).1 = [] ∧
    testInvokeNames (runSuite c4suite "S" cfg0 0).1 = [] ∧
    teardownInvokeCount (runSuite c4suite "S" cfg0 0).1 =
      (if (findTeardownName c4suite).isSome then 1 else 0) ∧
    finishSuiteStatuses (runSuite c4suite "S" cfg0 0).1 = ["failed"] :=
  setup_failure_skips_tests c4suite "S" cfg0 0 (by decide)

/-- C7: when setup succeeds, the test phase makes exactly one `startTest`
call per discovered test (with consecutive fresh identifiers, in discovery
order) and exactly one `finishTest` call per discovered test, whose status
is `passed` or `failed` according to that test's own outcome — so one test's
failure never prevents a later test from running and reporting. -/
theorem each_test_reported_exactly_once (s : JSObject) (suiteName : String)
    (cfg : Config) (nid : Nat)
    (h : setupProducedErr s { cfg with testId := some nid } = none) :
    startTestIds (runSuite s suiteName cfg nid).1 =
      seqIds (nid + 1) (discoveredTests s).length ∧
    finishTestRecords (runSuite s suiteName cfg nid).1 =
      expectedFinishes { cfg with testId := some nid } (discoveredTests s) (nid + 1) ∧
    ∀ p ∈ finishTestRecords (runSuite s suiteName cfg nid).1,
      p.2 = "passed" ∨ p.2 = "failed" := by
  have h2 : finishTestRecords (runSuite s suiteName cfg nid).1 =
      expectedFinishes { cfg with testId := some nid } (discoveredTests s) (nid + 1) := by
    rw [runSuite_finishTestRecords]; simp [h]
  refine ⟨?_, h2, ?_⟩
  · rw [runSuite_startTestIds]; simp [h]
  · intro p hp
    rw [h2] at hp
    exact expectedFinishes_status _ _ _ p hp

/-- C7, witness on a three-test suite whose middle test throws. -/
theorem each_test_reported_exactly_once_witness :
    startTestIds (runSuite c7suite "S" cfg0 0).1 =
      seqIds 1 (discoveredTests c7suite).length ∧
    finishTestRecords (runSuite c7suite "S" cfg0 0).1 =
      expectedFinishes { cfg0 with testId := some 0 } (discoveredTests c7suite) 1 ∧
    ∀ p ∈ finishTestRecords (runSuite c7suite "S" cfg0 0).1,
      p.2 = "passed" ∨ p.2 = "failed" :=
  each_test_reported_exactly_once c7suite "S" cfg0 0 (by decide)

/-- C8: the batch orchestrator raises the configuration error (before any
suite runs, hence the empty trace) when the reporting sink reference is
absent; otherwise it behaves as: resolve the enabled names in order,
silently dropping unknown ones, then run the resolved suites strictly
sequentially, stopping the whole batch at the first suite whose runner
throws. -/
theorem batch_orchestrator_policy (d : RunData) :
    runTestSuites d =
      if d.hasLogger then
        runSelected { base := d.base, testId := none }
          (selectSuites d.testSuites d.enabledSuites) 0
      else ([], some { message := "Reporter client not initialized" }) := by
  cases hd : d.hasLogger <;>
    simp [runTestSuites, hd, runSuitesAux_eq_runSelected]

/-- C9: attaching test metadata is idempotent in the first attachment:
a second attachment to a procedure that already carries metadata is a no-op,
and after the first `Test` call the procedure carries its previous metadata
if it had any and the newly attached metadata otherwise. -/
theorem test_metadata_first_attachment_wins (m : Method) (m1 m2 : TestMeta) :
    Test m2 (Test m1 m) = Test m1 m ∧
    (Test m1 m).testMetadata = some (m.testMetadata.getD m1) := by
  cases h : m.testMetadata <;> simp [Test, h]

/-- C10, counterexample: the suite's immediate prototype owns a non-function
property `t`, while the instance owns a metadata-tagged function `t`.
Discovery picks the name `t` from the prototype, but property lookup
resolves it to the instance's function, which is then invoked as a test —
so a method defined directly on the instance *is* invoked when its name
shadows a prototype own property. -/
theorem instance_shadowing_counterexample :
    (List.lookup "t" c10suite.own).isSome = true ∧
    valTestMetadata (lookupChain c10suite.protoChain "t") = none ∧
    ("test", "t", ({ base := 0, testId := some 1 } : Config)) ∈
      invokeRecords (runSuite c10suite "S" cfg0 0).1 ∧
    Event.logError (some 1) "Test failed: from-instance" ∈
      (runSuite c10suite "S" cfg0 0).1 :=
  ⟨by decide, by decide, by decide, by decide⟩

/-- C10, amended: discovery examines only the own property names of the
suite's immediate prototype — every procedure invocation of a suite run uses
a name that is an own property name of the immediate prototype, so a method
whose name does not appear there (inherited from further up the chain, or
defined on the instance under a fresh name) is never invoked; the invoked
value, however, is resolved by full property lookup from the instance. -/
theorem invoked_names_from_prototype_only (s : JSObject) (suiteName : String)
    (cfg : Config) (nid : Nat) :
    ∀ r ∈ invokeRecords (runSuite s suiteName cfg nid).1,
      r.2.1 ∈ protoOwnNames s := by
  intro r hr
  rw [runSuite_invokes] at hr
  rcases List.mem_append.mp hr with h | h
  · rcases List.mem_append.mp h with h | h
    · unfold setupInvokesOf at h
      cases hf : findSetupName s with
      | none => rw [hf] at h; simp at h
      | some n =>
        rw [hf] at h
        simp only [List.mem_singleton] at h
        subst h
        unfold findSetupName at hf
        exact List.mem_of_find?_eq_some hf
    · cases hs : setupProducedErr s { cfg with testId := some nid } with
      | some e => simp [hs] at h
      | none =>
        simp only [hs, Option.isNone_none, if_true] at h
        obtain ⟨-, hnm, -⟩ := mem_testInvokesOf _ (discoveredTests s) (nid + 1) r h
        rw [discoveredTests_names] at hnm
        exact List.mem_of_mem_filter hnm
  · unfold teardownInvokesOf at h
    cases hf : findTeardownName s with
    | none => rw [hf] at h; simp at h
    | some n =>
      rw [hf] at h
      simp only [List.mem_singleton] at h
      subst h
      unfold findTeardownName at hf
      exact List.mem_of_find?_eq_some hf

/-- C10, witness for the amended theorem: the shadowed name `t` that gets
invoked is indeed an own property name of the immediate prototype. -/
theorem invoked_names_from_prototype_only_witness :
    (("test", "t", ({ base := 0, testId := some 1 } : Config)) ∈
      invokeRecords (runSuite c10suite "S" cfg0 0).1) ∧
    ("test", "t", ({ base := 0, testId := some 1 } : Config)).2.1 ∈
      protoOwnNames c10suite :=
  ⟨by decide, invoked_names_from_prototype_only c10suite "S" cfg0 0
    ("test", "t", { base := 0, testId := some 1 }) (by decide)⟩

end K6
